import Mathlib

/-!
A shallow embedding of the proxy checker in `src/main.py` (class `ProxyChecker`).

Network I/O is modelled by passing the outcome of each of the (at most two)
HTTP GET requests that a single `check_proxy` call can make as explicit
parameters, and by returning, next to the result dictionary, the trace of
network calls the function performed.  Python dictionaries with a fixed key
set become structures; keys that are present only on some paths become
`Option` fields.  Python strings map to `String` (`str.strip` to
`String.trim`, `str.split(':')` to `String.splitOn ":"`, both of which agree
with the Python semantics on these inputs), and Python status strings stay
strings, as in the code.
-/

/-- Python `str.strip` whitespace set (ASCII): space, tab, newline, carriage
return, vertical tab, form feed. -/
def pyIsSpace (c : Char) : Bool :=
  c = ' ' ∨ c = '\t' ∨ c = '\n' ∨ c = '\x0d' ∨ c = '\x0b' ∨ c = '\x0c'

/-- Python `str.strip()` on the character list. -/
def stripChars (s : List Char) : List Char :=
  ((s.dropWhile pyIsSpace).reverse.dropWhile pyIsSpace).reverse

/-- Python `str.strip()`. -/
def pyStrip (s : String) : String := ⟨stripChars s.data⟩

/-- Python `str.split(sep)` for a one-character separator, on character
lists: always returns at least one (possibly empty) field. -/
def splitOnChar (c : Char) : List Char → List (List Char)
  | [] => [[]]
  | a :: rest =>
    if a = c then [] :: splitOnChar c rest
    else
      match splitOnChar c rest with
      | g :: gs => (a :: g) :: gs
      | [] => [[a]]

/-- Python `s.split(':')`. -/
def pySplitColon (s : String) : List String :=
  (splitOnChar ':' s.data).map fun l => ⟨l⟩

/-- Python `str.startswith` with a one-character prefix. -/
def pyStartsWith (s : String) (c : Char) : Bool :=
  match s.data with
  | a :: _ => a = c
  | [] => false

/-- ASCII-range `str.lower` on a character. -/
def asciiLower (c : Char) : Char :=
  if 65 ≤ c.toNat ∧ c.toNat ≤ 90 then Char.ofNat (c.toNat + 32) else c

/-- Python `str.lower()` (ASCII range). -/
def pyLower (s : String) : String := ⟨s.data.map asciiLower⟩

/-- `needle in hay` on character lists (Python substring test). -/
def containsSub (needle : List Char) : List Char → Bool
  | [] => needle.isPrefixOf []
  | a :: rest => needle.isPrefixOf (a :: rest) ∨ containsSub needle rest

/-- Basic-auth credentials: the `(username, password)` tuple of `main.py`. -/
abbrev Auth := String × String

/-- The `proxy_dict` built in `check_proxy`:
`{'http': f'http://{ip}:{port}', 'https': f'http://{ip}:{port}'}`. -/
structure ProxyDict where
  http : String
  https : String
deriving Repr, DecidableEq

/-- Outcome of the primary `requests.get` in `check_proxy`: either a response
with a status code and a body, or one of the three caught request exceptions,
or any other exception (which propagates to the outer handler). -/
inductive GetOutcome where
  | ok (statusCode : Nat) (body : String)
  | proxyError
  | timeout
  | connectionError
  | exception (msg : String)
deriving Repr, DecidableEq

/-- Outcome of the secondary `requests.get` in `check_anonymity`: either the
set of header names echoed back by the endpoint, or any failure. -/
inductive AnonOutcome where
  | ok (headers : List String)
  | failure
deriving Repr, DecidableEq

/-- One network call performed by the checker, with the proxy configuration
and credentials it was issued with. -/
inductive NetCall where
  | primaryGet (d : ProxyDict) (auth : Option Auth)
  | anonGet (d : ProxyDict) (auth : Option Auth)
deriving Repr, DecidableEq

/-- The result dictionary produced by `check_proxy`.  `proxy` and `status`
are present on every path; the remaining keys only on some paths, hence
`Option`. -/
structure ProbeResult where
  proxy : String
  status : String
  error : Option String := none
  response_time : Option ℚ := none
  anonymity : Option String := none
  country : Option String := none
deriving Repr, DecidableEq

/-- `ProxyChecker.check_anonymity` (src/main.py lines 102-123): classify the
headers echoed by `http://httpbin.org/headers`; any failure of the secondary
request yields `'unknown'`. -/
def check_anonymity (o : AnonOutcome) : String :=
  match o with
  | .failure => "unknown"
  | .ok headers =>
    if headers.contains "X-Forwarded-For" ∨ headers.contains "X-Real-Ip" then
      "transparent"
    else if headers.contains "Via" ∨ headers.contains "X-Forwarded-By" then
      "anonymous"
    else
      "elite"

/-- `ProxyChecker.get_country` (src/main.py lines 125-132):
`'Available'` if `'country' in response_text.lower()`, else `'Unknown'`. -/
def get_country (response_text : String) : String :=
  if containsSub "country".data (pyLower response_text).data then "Available"
  else "Unknown"

/-- The authentication handling of `check_proxy` (src/main.py lines 47-52):
credentials are taken from fields 3 and 4 exactly when the descriptor split
into 4 fields, i.e. when the fields after `ip` and `port` are exactly
`[username, password]`. -/
def authOfFields (rest : List String) : Option Auth :=
  match rest with
  | [username, password] => some (username, password)
  | _ => none

/-- `ProxyChecker.check_proxy` (src/main.py lines 28-100).

`primary` is the outcome of the `requests.get(self.test_urls[0], ...)` call,
`secondary` the outcome of the `requests.get('http://httpbin.org/headers', ...)`
call inside `check_anonymity` (consulted only if it is made), and
`elapsed_ms` the already-rounded value `round((time.time()-start)*1000, 2)`.
Returns the result dictionary together with the trace of network calls. -/
def check_proxy (primary : GetOutcome) (secondary : AnonOutcome)
    (elapsed_ms : ℚ) (proxy : String) : ProbeResult × List NetCall :=
  match pySplitColon (pyStrip proxy) with
  | ip :: port :: rest =>
    let auth : Option Auth := authOfFields rest
    let proxy_dict : ProxyDict :=
      { http := "http://" ++ ip ++ ":" ++ port
        https := "http://" ++ ip ++ ":" ++ port }
    match primary with
    | .ok statusCode body =>
      if statusCode = 200 then
        let anonymity := check_anonymity secondary
        ({ proxy := proxy, status := "working"
           response_time := some elapsed_ms
           anonymity := some anonymity
           country := some (get_country body) },
         [.primaryGet proxy_dict auth, .anonGet proxy_dict auth])
      else
        ({ proxy := proxy, status := "failed"
           error := some ("HTTP " ++ toString statusCode)
           response_time := some elapsed_ms },
         [.primaryGet proxy_dict auth])
    | .proxyError =>
      ({ proxy := proxy, status := "failed", error := some "Proxy connection failed" },
       [.primaryGet proxy_dict auth])
    | .timeout =>
      ({ proxy := proxy, status := "failed", error := some "Timeout" },
       [.primaryGet proxy_dict auth])
    | .connectionError =>
      ({ proxy := proxy, status := "failed", error := some "Connection error" },
       [.primaryGet proxy_dict auth])
    | .exception msg =>
      ({ proxy := proxy, status := "error", error := some msg },
       [.primaryGet proxy_dict auth])
  | _ => ({ proxy := proxy, status := "invalid", error := some "Invalid format" }, [])

/-- Round half to even (Python `round` tie-breaking) of a rational to an
integer. -/
def roundHalfEven (q : ℚ) : ℤ :=
  if q - ⌊q⌋ < 1/2 then ⌊q⌋
  else if q - ⌊q⌋ > 1/2 then ⌊q⌋ + 1
  else if ⌊q⌋ % 2 = 0 then ⌊q⌋ else ⌊q⌋ + 1

/-- Python `round(q, 2)`. -/
def pyRound2 (q : ℚ) : ℚ := (roundHalfEven (q * 100) : ℚ) / 100

/-- The `results_summary` dictionary built by `check_proxy_list`
(src/main.py lines 190-197). -/
structure Summary where
  total_tested : ℕ
  working : ℕ
  failed : ℕ
  success_rate : ℚ
  working_proxies : List ProbeResult
  failed_proxies : List ProbeResult
deriving Repr, DecidableEq

/-- `ProxyChecker.check_proxy_list` (src/main.py lines 157-200).

The thread pool is modelled by the completion order `completed`: the loop
over `concurrent.futures.as_completed` consumes each submitted descriptor's
result exactly once, in an order the runtime does not fix, so `completed`
ranges over permutations of `proxies` in the theorems.  The per-descriptor
network outcomes are the oracles `primary`, `secondary`, `elapsed`. -/
def check_proxy_list (primary : String → GetOutcome) (secondary : String → AnonOutcome)
    (elapsed : String → ℚ) (proxies completed : List String) : Summary :=
  let results := completed.map fun p => (check_proxy (primary p) (secondary p) (elapsed p) p).1
  let working_proxies := results.filter fun r => r.status == "working"
  let failed_proxies := results.filter fun r => !(r.status == "working")
  { total_tested := proxies.length
    working := working_proxies.length
    failed := failed_proxies.length
    success_rate :=
      if proxies.isEmpty then 0
      else pyRound2 ((working_proxies.length : ℚ) / (proxies.length : ℚ) * 100)
    working_proxies := working_proxies
    failed_proxies := failed_proxies }

/-- The list comprehension in `ProxyChecker.check_proxies_from_file`
(src/main.py line 146):
`[line.strip() for line in f if line.strip() and not line.startswith('#')]`.
The input file is the list of its lines (without trailing newlines, which
neither `strip` nor `startswith('#')` is sensitive to). -/
def proxies_from_lines (lines : List String) : List String :=
  (lines.filter fun line => (pyStrip line != "") && !pyStartsWith line '#').map pyStrip

/-- A JSON value, for the `json.dump` branch of `save_results`. -/
inductive Json where
  | str (s : String)
  | num (q : ℚ)
  | arr (elems : List Json)
  | obj (fields : List (String × Json))

/-- Serialize a result dictionary: the keys present in the dictionary, with
`proxy` and `status` first (object key order is irrelevant to re-parsing). -/
def probeResultToJson (r : ProbeResult) : Json :=
  .obj ([("proxy", Json.str r.proxy), ("status", Json.str r.status)]
    ++ (match r.error with | some e => [("error", Json.str e)] | none => [])
    ++ (match r.response_time with | some t => [("response_time", Json.num t)] | none => [])
    ++ (match r.anonymity with | some a => [("anonymity", Json.str a)] | none => [])
    ++ (match r.country with | some c => [("country", Json.str c)] | none => []))

/-- `json.dump(self.results, f, indent=2)` in `save_results`: the summary
dictionary with its six keys, in insertion order. -/
def summaryToJson (s : Summary) : Json :=
  .obj [("total_tested", Json.num s.total_tested),
        ("working", Json.num s.working),
        ("failed", Json.num s.failed),
        ("success_rate", Json.num s.success_rate),
        ("working_proxies", Json.arr (s.working_proxies.map probeResultToJson)),
        ("failed_proxies", Json.arr (s.failed_proxies.map probeResultToJson))]

/-- First value bound to a key in a JSON object (Python dict lookup after
`json.load`). -/
def jsonLookup (fields : List (String × Json)) (k : String) : Option Json :=
  match fields with
  | [] => none
  | (k', v) :: rest => if k' = k then some v else jsonLookup rest k

/-- Extract a JSON string. -/
def jsonStr? : Option Json → Option String
  | some (.str s) => some s
  | _ => none

/-- Extract a JSON number. -/
def jsonNum? : Option Json → Option ℚ
  | some (.num q) => some q
  | _ => none

/-- Extract a JSON number that is a natural number. -/
def jsonNat? (o : Option Json) : Option ℕ :=
  match o with
  | some (.num q) => if q.den = 1 ∧ 0 ≤ q.num then some q.num.toNat else none
  | _ => none

/-- Modelled from the spec: re-parsing one serialized probe result
("re-parsing the JSON recovers the same working/failed partition"): read the
`proxy` and `status` keys and whichever optional keys are present. -/
def jsonToProbeResult (j : Json) : Option ProbeResult :=
  match j with
  | .obj fields => do
    let proxy ← jsonStr? (jsonLookup fields "proxy")
    let status ← jsonStr? (jsonLookup fields "status")
    pure { proxy := proxy, status := status
           error := jsonStr? (jsonLookup fields "error")
           response_time := jsonNum? (jsonLookup fields "response_time")
           anonymity := jsonStr? (jsonLookup fields "anonymity")
           country := jsonStr? (jsonLookup fields "country") }
  | _ => none

/-- Modelled from the spec: re-parsing a serialized result array,
element by element. -/
def jsonToProbeResults : List Json → Option (List ProbeResult)
  | [] => some []
  | j :: rest => do
    let r ← jsonToProbeResult j
    let rs ← jsonToProbeResults rest
    pure (r :: rs)

/-- Modelled from the spec: re-parsing a serialized batch summary: read the
six keys `json.dump` wrote back into a `Summary`. -/
def jsonToSummary (j : Json) : Option Summary :=
  match j with
  | .obj fields => do
    let total ← jsonNat? (jsonLookup fields "total_tested")
    let working ← jsonNat? (jsonLookup fields "working")
    let failed ← jsonNat? (jsonLookup fields "failed")
    let rate ← jsonNum? (jsonLookup fields "success_rate")
    let wp ← match jsonLookup fields "working_proxies" with
      | some (.arr xs) => jsonToProbeResults xs
      | _ => none
    let fp ← match jsonLookup fields "failed_proxies" with
      | some (.arr xs) => jsonToProbeResults xs
      | _ => none
    pure { total_tested := total, working := working, failed := failed
           success_rate := rate, working_proxies := wp, failed_proxies := fp }
  | _ => none

/-- One CSV cell, as handed to `csv.writer.writerow`: a string, a number, or
the empty-string default of `proxy.get(key, '')`. -/
inductive CsvCell where
  | str (s : String)
  | num (q : ℚ)
  | empty
deriving Repr, DecidableEq

/-- Content written to an output file by `save_results`. -/
inductive FileContent where
  | txt (lines : List String)
  | jsonFile (j : Json)
  | csv (rows : List (List CsvCell))

/-- The mutable state of a `ProxyChecker` instance: `self.timeout`,
`self.max_workers`, `self.results` (`none` models the initial falsy `[]`;
`check_proxy_list` stores the always-truthy summary dictionary). -/
structure CheckerState where
  timeout : ℚ
  max_workers : ℕ
  results : Option Summary

/-- `proxy.get('response_time', '')` as a CSV cell. -/
def timeCell : Option ℚ → CsvCell
  | some t => .num t
  | none => .empty

/-- `proxy.get(key, '')` as a CSV cell. -/
def strCell : Option String → CsvCell
  | some s => .str s
  | none => .empty

/-- `ProxyChecker.save_results` (src/main.py lines 202-253): returns the
(unchanged) checker state and the list of `(filename, content)` writes
performed.  `if not self.results: return` is the `none` branch; a format
other than `txt`/`json`/`csv` falls through every branch and writes
nothing. -/
def save_results (st : CheckerState) (filename : String) (format : String) :
    CheckerState × List (String × FileContent) :=
  match st.results with
  | none => (st, [])
  | some res =>
    if format = "txt" then
      (st, [(filename, .txt ("Working Proxies:" :: String.mk (List.replicate 40 '=')
              :: res.working_proxies.map fun r => r.proxy))])
    else if format = "json" then
      (st, [(filename, .jsonFile (summaryToJson res))])
    else if format = "csv" then
      (st, [(filename, .csv ([.str "Proxy", .str "Status", .str "Response Time",
                              .str "Anonymity", .str "Error"] ::
        ((res.working_proxies.map fun r =>
            [.str r.proxy, .str r.status, timeCell r.response_time,
             strCell r.anonymity, .str ""]) ++
         (res.failed_proxies.map fun r =>
            [.str r.proxy, .str r.status, .empty, .empty, strCell r.error]))))])
    else (st, [])

/-- A sample failed-probe result: the `invalid` dictionary of line 42. -/
def sampleResult : ProbeResult :=
  { proxy := "bad", status := "invalid", error := some "Invalid format" }

/-- A sample one-result batch summary, used as a concrete test input. -/
def sampleSummary : Summary :=
  { total_tested := 1, working := 0, failed := 1, success_rate := 0
    working_proxies := [], failed_proxies := [sampleResult] }

/-- A sample checker state holding `sampleSummary`. -/
def sampleState : CheckerState :=
  { timeout := 10, max_workers := 15, results := some sampleSummary }

example :
    (check_proxy (.ok 200 "body") (.ok []) 5 "1.2.3.4:80").1.status = "working" := by
  decide

example : (check_proxy .timeout .failure 5 "bad").1.status = "invalid" := by decide

example : (pySplitColon (pyStrip "1.2.3.4:80:u:p")).length = 4 := by decide

/-- Predicate picking out the primary GET in a call trace. -/
def isPrimaryCall : NetCall → Bool
  | .primaryGet _ _ => true
  | .anonGet _ _ => false

/-- The credentials attached to each primary GET in a call trace. -/
def primaryAuths (calls : List NetCall) : List (Option Auth) :=
  calls.filterMap fun c =>
    match c with
    | .primaryGet _ a => some a
    | .anonGet _ _ => none

/-- C1: for every descriptor string and every network outcome, `check_proxy`
returns a well-formed result with the `proxy` field echoing its argument and
a `status` that is one of `working`, `failed`, `invalid`, `error` (totality
of the Lean function embodies "never raises"). -/
theorem check_proxy_total (primary : GetOutcome) (secondary : AnonOutcome)
    (e : ℚ) (proxy : String) :
    (check_proxy primary secondary e proxy).1.proxy = proxy ∧
    (check_proxy primary secondary e proxy).1.status ∈
      (["working", "failed", "invalid", "error"] : List String) := by
  unfold check_proxy
  rcases h : pySplitColon (pyStrip proxy) with _ | ⟨ip, _ | ⟨port, rest⟩⟩
  · simp
  · simp
  · cases primary with
    | ok code body =>
      by_cases hc : code = 200 <;> simp [hc]
    | proxyError => simp
    | timeout => simp
    | connectionError => simp
    | exception msg => simp

/-- C2: for every descriptor string whose stripped form splits into fewer
than 2 colon-separated fields, `check_proxy` returns the `invalid` result
dictionary and performs no network call. -/
theorem check_proxy_invalid (primary : GetOutcome) (secondary : AnonOutcome)
    (e : ℚ) (proxy : String)
    (h : (pySplitColon (pyStrip proxy)).length < 2) :
    check_proxy primary secondary e proxy =
      ({ proxy := proxy, status := "invalid", error := some "Invalid format" }, []) := by
  unfold check_proxy
  rcases hs : pySplitColon (pyStrip proxy) with _ | ⟨ip, _ | ⟨port, rest⟩⟩
  · rfl
  · rfl
  · rw [hs] at h
    simp at h
    omega

/-- Witness for C2 at the descriptor `"bad"`. -/
theorem check_proxy_invalid_witness :
    (pySplitColon (pyStrip "bad")).length < 2 ∧
    check_proxy .timeout .failure 0 "bad" =
      ({ proxy := "bad", status := "invalid", error := some "Invalid format" }, []) :=
  ⟨by decide, check_proxy_invalid .timeout .failure 0 "bad" (by decide)⟩

/-- C3: for every batch, in whatever order the futures complete, the
summary satisfies `working + failed = total_tested`, with `total_tested`
the length of the submitted descriptor list: each dispatched descriptor's
result lands in exactly one of the two partitions. -/
theorem check_proxy_list_partition (primary : String → GetOutcome)
    (secondary : String → AnonOutcome) (elapsed : String → ℚ)
    (proxies completed : List String) (h : completed.Perm proxies) :
    (check_proxy_list primary secondary elapsed proxies completed).working +
      (check_proxy_list primary secondary elapsed proxies completed).failed =
      (check_proxy_list primary secondary elapsed proxies completed).total_tested := by
  have hlen := List.length_eq_length_filter_add
    (l := completed.map fun p => (check_proxy (primary p) (secondary p) (elapsed p) p).1)
    (fun r => r.status == "working")
  simp only [List.length_map, h.length_eq] at hlen
  simp only [check_proxy_list]
  omega

/-- Witness for C3 on a two-descriptor batch consumed in swapped order. -/
theorem check_proxy_list_partition_witness :
    (["b", "a:1"] : List String).Perm ["a:1", "b"] ∧
    (check_proxy_list (fun _ => .timeout) (fun _ => .failure) (fun _ => 0)
        ["a:1", "b"] ["b", "a:1"]).working +
      (check_proxy_list (fun _ => .timeout) (fun _ => .failure) (fun _ => 0)
        ["a:1", "b"] ["b", "a:1"]).failed =
      (check_proxy_list (fun _ => .timeout) (fun _ => .failure) (fun _ => 0)
        ["a:1", "b"] ["b", "a:1"]).total_tested :=
  ⟨List.Perm.swap _ _ _,
   check_proxy_list_partition _ _ _ _ _ (List.Perm.swap _ _ _)⟩

/-- C4: the summary's `success_rate` is `round(working / total * 100, 2)`
whenever the batch is non-empty, and `0` (not a division error) on an empty
batch. -/
theorem check_proxy_list_success_rate (primary : String → GetOutcome)
    (secondary : String → AnonOutcome) (elapsed : String → ℚ)
    (proxies completed : List String) :
    (0 < (check_proxy_list primary secondary elapsed proxies completed).total_tested →
      (check_proxy_list primary secondary elapsed proxies completed).success_rate =
        pyRound2
          (((check_proxy_list primary secondary elapsed proxies completed).working : ℚ) /
            ((check_proxy_list primary secondary elapsed proxies completed).total_tested : ℚ)
            * 100)) ∧
    (proxies = [] →
      (check_proxy_list primary secondary elapsed proxies completed).success_rate = 0) := by
  constructor
  · intro hpos
    simp only [check_proxy_list] at hpos ⊢
    rw [if_neg]
    simp only [List.isEmpty_iff]
    intro hnil
    rw [hnil] at hpos
    simp at hpos
  · intro hnil
    simp [check_proxy_list, hnil]

/-- Witness for C4: a non-empty batch and an empty batch. -/
theorem check_proxy_list_success_rate_witness :
    (0 < (check_proxy_list (fun _ => .timeout) (fun _ => .failure) (fun _ => 0)
        ["a:1"] ["a:1"]).total_tested ∧
     (check_proxy_list (fun _ => .timeout) (fun _ => .failure) (fun _ => 0)
        ["a:1"] ["a:1"]).success_rate =
       pyRound2
         (((check_proxy_list (fun _ => .timeout) (fun _ => .failure) (fun _ => 0)
             ["a:1"] ["a:1"]).working : ℚ) /
           ((check_proxy_list (fun _ => .timeout) (fun _ => .failure) (fun _ => 0)
             ["a:1"] ["a:1"]).total_tested : ℚ) * 100)) ∧
    (check_proxy_list (fun _ => .timeout) (fun _ => .failure) (fun _ => 0)
        [] []).success_rate = 0 :=
  ⟨⟨by decide,
    (check_proxy_list_success_rate (fun _ => .timeout) (fun _ => .failure) (fun _ => 0)
      ["a:1"] ["a:1"]).1 (by decide)⟩,
   (check_proxy_list_success_rate (fun _ => .timeout) (fun _ => .failure) (fun _ => 0)
      [] []).2 rfl⟩

/-- C5: for every parseable descriptor, the primary GET's failures map to
the statuses and error strings of the source: proxy error, timeout, and
connection error give `failed` with their categorized strings, a non-200
response gives `failed` with `HTTP <code>`, any other exception gives
`error` with its text; and every outcome issues exactly one primary GET
(no retry). -/
theorem check_proxy_failure_taxonomy (secondary : AnonOutcome) (e : ℚ) (p : String)
    (h : 2 ≤ (pySplitColon (pyStrip p)).length) :
    (∀ code body, code ≠ 200 →
        (check_proxy (.ok code body) secondary e p).1.status = "failed" ∧
        (check_proxy (.ok code body) secondary e p).1.error =
          some ("HTTP " ++ toString code)) ∧
    ((check_proxy .proxyError secondary e p).1.status = "failed" ∧
      (check_proxy .proxyError secondary e p).1.error = some "Proxy connection failed") ∧
    ((check_proxy .timeout secondary e p).1.status = "failed" ∧
      (check_proxy .timeout secondary e p).1.error = some "Timeout") ∧
    ((check_proxy .connectionError secondary e p).1.status = "failed" ∧
      (check_proxy .connectionError secondary e p).1.error = some "Connection error") ∧
    (∀ msg, (check_proxy (.exception msg) secondary e p).1.status = "error" ∧
      (check_proxy (.exception msg) secondary e p).1.error = some msg) ∧
    (∀ primary, ((check_proxy primary secondary e p).2.countP isPrimaryCall) = 1) := by
  rcases hs : pySplitColon (pyStrip p) with _ | ⟨ip, _ | ⟨port, rest⟩⟩
  · rw [hs] at h; simp at h
  · rw [hs] at h; simp at h
  · refine ⟨?_, ?_, ?_, ?_, ?_, ?_⟩
    · intro code body hc
      simp [check_proxy, hs, hc]
    · simp [check_proxy, hs]
    · simp [check_proxy, hs]
    · simp [check_proxy, hs]
    · intro msg
      simp [check_proxy, hs]
    · intro primary
      cases primary with
      | ok code body =>
        by_cases hc : code = 200 <;>
          simp [check_proxy, hs, hc, isPrimaryCall, List.countP_cons]
      | proxyError => simp [check_proxy, hs, isPrimaryCall, List.countP_cons]
      | timeout => simp [check_proxy, hs, isPrimaryCall, List.countP_cons]
      | connectionError => simp [check_proxy, hs, isPrimaryCall, List.countP_cons]
      | exception msg => simp [check_proxy, hs, isPrimaryCall, List.countP_cons]

/-- Witness for C5 at the descriptor `"1.2.3.4:80"`. -/
theorem check_proxy_failure_taxonomy_witness :
    2 ≤ (pySplitColon (pyStrip "1.2.3.4:80")).length ∧
    (check_proxy .proxyError .failure 0 "1.2.3.4:80").1.status = "failed" ∧
    (check_proxy (.exception "boom") .failure 0 "1.2.3.4:80").1.status = "error" ∧
    ((check_proxy .timeout .failure 0 "1.2.3.4:80").2.countP isPrimaryCall) = 1 :=
  ⟨by decide,
   ((check_proxy_failure_taxonomy .failure 0 "1.2.3.4:80" (by decide)).2.1).1,
   ((check_proxy_failure_taxonomy .failure 0 "1.2.3.4:80" (by decide)).2.2.2.2.1 "boom").1,
   (check_proxy_failure_taxonomy .failure 0 "1.2.3.4:80" (by decide)).2.2.2.2.2 .timeout⟩

/-- C6: the anonymity classification of the headers echoed by the secondary
probe is `transparent` if `X-Forwarded-For` or `X-Real-Ip` is present, else
`anonymous` if `Via` or `X-Forwarded-By` is present, else `elite`; any
failure of the secondary probe gives `unknown`; and on a 200 primary
response the probe result is `working` with that classification whatever
the secondary outcome — a secondary failure is swallowed, never
propagated. -/
theorem check_anonymity_classification (e : ℚ) (p : String) :
    (∀ headers : List String,
      ((headers.contains "X-Forwarded-For" ∨ headers.contains "X-Real-Ip") →
        check_anonymity (.ok headers) = "transparent") ∧
      (¬(headers.contains "X-Forwarded-For" ∨ headers.contains "X-Real-Ip") →
        (headers.contains "Via" ∨ headers.contains "X-Forwarded-By") →
        check_anonymity (.ok headers) = "anonymous") ∧
      (¬(headers.contains "X-Forwarded-For" ∨ headers.contains "X-Real-Ip") →
        ¬(headers.contains "Via" ∨ headers.contains "X-Forwarded-By") →
        check_anonymity (.ok headers) = "elite")) ∧
    check_anonymity .failure = "unknown" ∧
    (∀ (secondary : AnonOutcome) (body : String),
      2 ≤ (pySplitColon (pyStrip p)).length →
      (check_proxy (.ok 200 body) secondary e p).1.status = "working" ∧
      (check_proxy (.ok 200 body) secondary e p).1.anonymity =
        some (check_anonymity secondary)) := by
  refine ⟨?_, rfl, ?_⟩
  · intro headers
    refine ⟨?_, ?_, ?_⟩
    · intro h1
      simp only [check_anonymity, if_pos h1]
    · intro h1 h2
      simp only [check_anonymity, if_neg h1, if_pos h2]
    · intro h1 h2
      simp only [check_anonymity, if_neg h1, if_neg h2]
  · intro secondary body hlen
    rcases hs : pySplitColon (pyStrip p) with _ | ⟨ip, _ | ⟨port, rest⟩⟩
    · rw [hs] at hlen; simp at hlen
    · rw [hs] at hlen; simp at hlen
    · simp [check_proxy, hs]

/-- C7 counterexample: the line `"  #comment"` (whitespace before `#`) is
not ignored — it is submitted as the descriptor `"#comment"`, because the
source tests `line.startswith('#')` on the raw line, before stripping. -/
theorem proxies_from_lines_counterexample :
    proxies_from_lines ["  #comment"] = ["#comment"] := by decide

/-- C7 amended: a line is ignored exactly when it is blank after stripping
or its raw text begins with `#`; every other line is submitted stripped of
surrounding whitespace (so a line that begins with whitespace followed by
`#` is submitted, not ignored); and filtering distributes over
concatenation of line blocks. -/
theorem proxies_from_lines_spec :
    (∀ l : String, proxies_from_lines [l] =
      if (pyStrip l != "") && !pyStartsWith l '#' then [pyStrip l] else []) ∧
    (∀ ls₁ ls₂ : List String,
      proxies_from_lines (ls₁ ++ ls₂) =
        proxies_from_lines ls₁ ++ proxies_from_lines ls₂) := by
  constructor
  · intro l
    simp only [proxies_from_lines, List.filter_cons, List.filter_nil]
    split <;> simp
  · intro ls₁ ls₂
    simp [proxies_from_lines, List.filter_append]

/-- Round trip of one result dictionary through JSON. -/
theorem probeResultToJson_roundtrip (r : ProbeResult) :
    jsonToProbeResult (probeResultToJson r) = some r := by
  rcases r with ⟨p, s, e, t, a, c⟩
  rcases e with _ | e <;> rcases t with _ | t <;> rcases a with _ | a <;>
    rcases c with _ | c <;> rfl

/-- Round trip of a result array through JSON. -/
theorem jsonToProbeResults_roundtrip (l : List ProbeResult) :
    jsonToProbeResults (l.map probeResultToJson) = some l := by
  induction l with
  | nil => rfl
  | cons r t ih => simp [jsonToProbeResults, probeResultToJson_roundtrip, ih]

/-- A JSON number holding a natural count decodes back to it. -/
theorem jsonNat?_natCast (n : ℕ) : jsonNat? (some (.num (n : ℚ))) = some n := by
  simp [jsonNat?]

/-- Round trip of a batch summary through JSON. -/
theorem summaryToJson_roundtrip (s : Summary) :
    jsonToSummary (summaryToJson s) = some s := by
  rcases s with ⟨t, w, f, rate, wp, fp⟩
  simp [jsonToSummary, summaryToJson, jsonLookup, jsonNat?_natCast, jsonNum?,
    jsonToProbeResults_roundtrip]

/-- C8: `save_results` in `json` format writes exactly the serialized
summary, and re-parsing that JSON recovers the summary — in particular the
same working/failed partition and the same `total_tested`, `working`,
`failed` counts. -/
theorem save_results_json_roundtrip (st : CheckerState) (res : Summary)
    (filename : String) (h : st.results = some res) :
    save_results st filename "json" =
      (st, [(filename, .jsonFile (summaryToJson res))]) ∧
    jsonToSummary (summaryToJson res) = some res := by
  constructor
  · simp [save_results, h]
  · exact summaryToJson_roundtrip res

/-- Witness for C8 on a one-result summary. -/
theorem save_results_json_roundtrip_witness :
    sampleState.results = some sampleSummary ∧
    save_results sampleState "out.json" "json" =
      (sampleState, [("out.json", .jsonFile (summaryToJson sampleSummary))]) ∧
    jsonToSummary (summaryToJson sampleSummary) = some sampleSummary :=
  ⟨rfl,
   (save_results_json_roundtrip sampleState sampleSummary "out.json" rfl).1,
   (save_results_json_roundtrip sampleState sampleSummary "out.json" rfl).2⟩

/-- For a parseable descriptor the probe's status is never `invalid`. -/
theorem check_proxy_status_ne_invalid (primary : GetOutcome)
    (secondary : AnonOutcome) (e : ℚ) (p ip port : String) (rest : List String)
    (hs : pySplitColon (pyStrip p) = ip :: port :: rest) :
    (check_proxy primary secondary e p).1.status ≠ "invalid" := by
  cases primary with
  | ok code body => by_cases hc : code = 200 <;> simp [check_proxy, hs, hc]
  | proxyError => simp [check_proxy, hs]
  | timeout => simp [check_proxy, hs]
  | connectionError => simp [check_proxy, hs]
  | exception msg => simp [check_proxy, hs]

/-- For a parseable descriptor the trace holds exactly one primary GET,
whose credentials are `authOfFields` of the fields after `ip` and `port`. -/
theorem primaryAuths_check_proxy (primary : GetOutcome) (secondary : AnonOutcome)
    (e : ℚ) (p ip port : String) (rest : List String)
    (hs : pySplitColon (pyStrip p) = ip :: port :: rest) :
    primaryAuths (check_proxy primary secondary e p).2 = [authOfFields rest] := by
  cases primary with
  | ok code body =>
    by_cases hc : code = 200 <;> simp [check_proxy, hs, hc, primaryAuths]
  | proxyError => simp [check_proxy, hs, primaryAuths]
  | timeout => simp [check_proxy, hs, primaryAuths]
  | connectionError => simp [check_proxy, hs, primaryAuths]
  | exception msg => simp [check_proxy, hs, primaryAuths]

/-- C9: a descriptor with exactly 3 colon-separated fields, or with 5 or
more, is not treated as invalid and is probed with no credentials;
credentials are attached to the primary GET only when the descriptor has
exactly 4 fields. -/
theorem check_proxy_auth_arity (primary : GetOutcome) (secondary : AnonOutcome)
    (e : ℚ) (p : String) :
    ((pySplitColon (pyStrip p)).length = 3 ∨ 5 ≤ (pySplitColon (pyStrip p)).length →
      (check_proxy primary secondary e p).1.status ≠ "invalid" ∧
      primaryAuths (check_proxy primary secondary e p).2 = [none]) ∧
    (∀ a : Auth, some a ∈ primaryAuths (check_proxy primary secondary e p).2 →
      (pySplitColon (pyStrip p)).length = 4) := by
  constructor
  · intro hlen
    rcases hs : pySplitColon (pyStrip p) with _ | ⟨ip, _ | ⟨port, rest⟩⟩
    · rw [hs] at hlen
      simp only [List.length_nil] at hlen
      omega
    · rw [hs] at hlen
      simp only [List.length_cons, List.length_nil] at hlen
      omega
    · refine ⟨check_proxy_status_ne_invalid _ _ _ _ _ _ _ hs, ?_⟩
      rw [primaryAuths_check_proxy _ _ _ _ _ _ _ hs]
      rw [hs] at hlen
      simp only [List.length_cons] at hlen
      rcases rest with _ | ⟨r1, _ | ⟨r2, _ | ⟨r3, rrest⟩⟩⟩
      · exfalso
        simp only [List.length_nil] at hlen
        omega
      · rfl
      · exfalso
        simp only [List.length_cons, List.length_nil] at hlen
        omega
      · rfl
  · intro a ha
    rcases hs : pySplitColon (pyStrip p) with _ | ⟨ip, _ | ⟨port, rest⟩⟩
    · simp [check_proxy, hs, primaryAuths] at ha
    · simp [check_proxy, hs, primaryAuths] at ha
    · rw [primaryAuths_check_proxy _ _ _ _ _ _ _ hs] at ha
      rcases rest with _ | ⟨r1, _ | ⟨r2, _ | ⟨r3, rrest⟩⟩⟩
      · simp [authOfFields] at ha
      · simp [authOfFields] at ha
      · rfl
      · simp [authOfFields] at ha

/-- Witness for C9 on a 3-field and a 5-field descriptor. -/
theorem check_proxy_auth_arity_witness :
    ((pySplitColon (pyStrip "1.2.3.4:80:user")).length = 3 ∨
      5 ≤ (pySplitColon (pyStrip "1.2.3.4:80:user")).length) ∧
    (check_proxy .timeout .failure 0 "1.2.3.4:80:user").1.status ≠ "invalid" ∧
    primaryAuths (check_proxy .timeout .failure 0 "1.2.3.4:80:user").2 = [none] ∧
    primaryAuths (check_proxy .timeout .failure 0 "a:1:b:2:c").2 = [none] :=
  ⟨Or.inl (by decide),
   ((check_proxy_auth_arity .timeout .failure 0 "1.2.3.4:80:user").1
     (Or.inl (by decide))).1,
   ((check_proxy_auth_arity .timeout .failure 0 "1.2.3.4:80:user").1
     (Or.inl (by decide))).2,
   ((check_proxy_auth_arity .timeout .failure 0 "a:1:b:2:c").1
     (Or.inr (by decide))).2⟩

/-- C10: a format other than `txt`/`json`/`csv` writes no file yet
completes; with no results stored, nothing is written for any format; and
`save_results` never changes the checker state. -/
theorem save_results_no_write (st : CheckerState) (filename format : String) :
    (format ∉ (["txt", "json", "csv"] : List String) →
      save_results st filename format = (st, [])) ∧
    (st.results = none → save_results st filename format = (st, [])) ∧
    (save_results st filename format).1 = st := by
  refine ⟨?_, ?_, ?_⟩
  · intro hfmt
    simp only [List.mem_cons, List.not_mem_nil, or_false, not_or] at hfmt
    obtain ⟨h1, h2, h3⟩ := hfmt
    cases hres : st.results with
    | none => simp [save_results, hres]
    | some res => simp [save_results, hres, h1, h2, h3]
  · intro hres
    simp [save_results, hres]
  · cases hres : st.results with
    | none => simp [save_results, hres]
    | some res =>
      simp only [save_results, hres]
      split_ifs <;> rfl

/-- Witness for C10 with format `xml` and an unset result store. -/
theorem save_results_no_write_witness :
    ("xml" : String) ∉ (["txt", "json", "csv"] : List String) ∧
    save_results { timeout := 10, max_workers := 15, results := none }
      "out.xml" "xml" =
      ({ timeout := 10, max_workers := 15, results := none }, []) ∧
    ({ timeout := 10, max_workers := 15, results := none } : CheckerState).results
      = none :=
  ⟨by decide,
   (save_results_no_write { timeout := 10, max_workers := 15, results := none }
     "out.xml" "xml").1 (by decide),
   rfl⟩

/-- Witness for C6: a transparent header set, an anonymous one, and a
swallowed secondary failure on a parseable descriptor. -/
theorem check_anonymity_classification_witness :
    check_anonymity (.ok ["X-Real-Ip"]) = "transparent" ∧
    check_anonymity (.ok ["Via"]) = "anonymous" ∧
    check_anonymity (.ok []) = "elite" ∧
    ((check_proxy (.ok 200 "") .failure 0 "1.2.3.4:80").1.status = "working" ∧
     (check_proxy (.ok 200 "") .failure 0 "1.2.3.4:80").1.anonymity = some "unknown") :=
  ⟨((check_anonymity_classification 0 "x").1 ["X-Real-Ip"]).1 (by decide),
   ((check_anonymity_classification 0 "x").1 ["Via"]).2.1 (by decide) (by decide),
   ((check_anonymity_classification 0 "x").1 []).2.2 (by decide) (by decide),
   (check_anonymity_classification 0 "1.2.3.4:80").2.2 .failure "" (by decide)⟩

example : pySplitColon "" = [""] := by decide

example : pySplitColon "a:" = ["a", ""] := by decide

example : pyStrip "  x y\t" = "x y" := by decide
